import Mathlib

/-!
Verification of the gesture particle system.

Shallow embedding of the two real-time cores of the repository:
the particle engine (`docs/js/particleSystem.js`, class `ParticleSystem`)
and the gesture estimator (`docs/js/gestureDetector.js`, class
`GestureDetector`), plus the simpler binary-threshold variant
(`particles/static/particles/js/main.js`).

Modelling conventions:
* JS numbers are modelled as real numbers.
* `Math.random()` is modelled as an explicit stream argument: a function
  giving, for each particle index and each call made while processing that
  particle (in source order), a value in `[0,1)`.  Theorems that need the
  range state it as a hypothesis.
* The flat `Float32Array`s of length `3·particleCount` are modelled as
  `List ℝ`; an in-place write loop `for i < m: dst[i] = src[i]` is modelled
  by `writeFirst`.
-/

namespace GPS

/-- Linear interpolation, `lerp(a, b, t) = a + (b - a) * t`
(gestureDetector.js line 222). -/
def lerp (a b t : ℝ) : ℝ := a + (b - a) * t

/-- Flatten `n` position triples produced by `f` into one flat scalar list,
the layout `positions[i*3 + k]` used by every loop in the source. -/
def flat3 (f : ℕ → ℝ × ℝ × ℝ) (n : ℕ) : List ℝ :=
  (List.range n).flatMap (fun i => [(f i).1, (f i).2.1, (f i).2.2])

/-- Model of the in-place element copy `for (i = 0; i < m; i++) dst[i] = src[i]`
on arrays whose length is at least `m`. -/
def writeFirst (dst src : List ℝ) (m : ℕ) : List ℝ := src.take m ++ dst.drop m

/-! ## Pattern generator (particleSystem.js, `generatePattern`, lines 226-321) -/

/-- The pattern kinds of the `switch` in `generatePattern`; `randomCloud` is
the `default` branch. -/
inductive Pattern
  | sphere
  | cube
  | torus
  | spiral
  | galaxy
  | heart
  | dna
  | wave
  | randomCloud
deriving DecidableEq

/-- JS `Math.cbrt`: the real cube root, negative for negative input. -/
noncomputable def jsCbrt (x : ℝ) : ℝ :=
  if 0 ≤ x then x ^ ((1 : ℝ) / 3) else -((-x) ^ ((1 : ℝ) / 3))

/-- Position of particle `i` out of `count` for a given pattern kind, radius
and the particle's random draws (`rand k` = the k-th `Math.random()` call made
in the source while computing this particle).  Direct transcription of the
`switch` body of `generatePattern` (lines 234-313). -/
noncomputable def patternPos (pattern : Pattern) (count : ℕ) (radius : ℝ)
    (rand : ℕ → ℝ) (i : ℕ) : ℝ × ℝ × ℝ :=
  match pattern with
  | .sphere =>
      let phi := Real.arccos (2 * rand 0 - 1)
      let theta := rand 1 * Real.pi * 2
      let r := radius * jsCbrt (rand 2)
      (r * Real.sin phi * Real.cos theta,
       r * Real.sin phi * Real.sin theta,
       r * Real.cos phi)
  | .cube =>
      ((rand 0 - 0.5) * radius * 2,
       (rand 1 - 0.5) * radius * 2,
       (rand 2 - 0.5) * radius * 2)
  | .torus =>
      let torusAngle := rand 0 * Real.pi * 2
      let tubeAngle := rand 1 * Real.pi * 2
      let torusRadius := radius * 0.8
      let tubeRadius := radius * 0.3 * rand 2
      ((torusRadius + tubeRadius * Real.cos tubeAngle) * Real.cos torusAngle,
       tubeRadius * Real.sin tubeAngle,
       (torusRadius + tubeRadius * Real.cos tubeAngle) * Real.sin torusAngle)
  | .spiral =>
      let spiralT := ((i : ℝ) / (count : ℝ)) * Real.pi * 8
      let spiralRadius := radius * (0.2 + ((i : ℝ) / (count : ℝ)) * 0.8)
      (spiralRadius * Real.cos spiralT + (rand 0 - 0.5) * 2,
       ((i : ℝ) / (count : ℝ) - 0.5) * radius * 2,
       spiralRadius * Real.sin spiralT + (rand 1 - 0.5) * 2)
  | .galaxy =>
      let arm : ℤ := ⌊rand 0 * 3⌋
      let armAngle := ((arm : ℝ) / 3) * Real.pi * 2
      let d := rand 1 * radius
      let spread := (1 - d / radius) * 0.5
      let galaxyAngle := armAngle + (d / radius) * Real.pi * 2
      (d * Real.cos galaxyAngle + (rand 2 - 0.5) * spread * radius,
       (rand 3 - 0.5) * spread * radius * 0.3,
       d * Real.sin galaxyAngle + (rand 4 - 0.5) * spread * radius)
  | .heart =>
      let ht := ((i : ℝ) / (count : ℝ)) * Real.pi * 2
      let heartScale := radius * 0.8
      (heartScale * 0.8 * (16 * Real.sin ht ^ 3) / 16 + (rand 1 - 0.5) * 1.5,
       heartScale * 0.8 * (13 * Real.cos ht - 5 * Real.cos (2 * ht)
         - 2 * Real.cos (3 * ht) - Real.cos (4 * ht)) / 16 + (rand 2 - 0.5) * 1.5,
       (rand 0 - 0.5) * radius * 0.5)
  | .dna =>
      let dnaT := ((i : ℝ) / (count : ℝ)) * Real.pi * 6
      let dnaOffset := ((i % 2 : ℕ) : ℝ) * Real.pi
      let dnaRadius := radius * 0.4
      (dnaRadius * Real.cos (dnaT + dnaOffset) + (rand 0 - 0.5) * 1,
       ((i : ℝ) / (count : ℝ) - 0.5) * radius * 3,
       dnaRadius * Real.sin (dnaT + dnaOffset) + (rand 1 - 0.5) * 1)
  | .wave =>
      let waveX := ((i % 100 : ℕ) : ℝ) / 100 - 0.5
      let waveZ := ((i / 100 : ℕ) : ℝ) / ((count : ℝ) / 100) - 0.5
      (waveX * radius * 3,
       Real.sin (waveX * Real.pi * 4) * Real.cos (waveZ * Real.pi * 4)
         * radius * 0.5 + (rand 0 - 0.5) * 1,
       waveZ * radius * 3)
  | .randomCloud =>
      ((rand 0 - 0.5) * radius * 2,
       (rand 1 - 0.5) * radius * 2,
       (rand 2 - 0.5) * radius * 2)

/-- The radius constant fixed inside `generatePattern` (line 228). -/
def genRadius : ℝ := 15

/-- `generatePattern(pattern)`: the flat `Float32Array(particleCount * 3)` of
positions (lines 226-321).  `rand i k` is the k-th random draw of particle `i`. -/
noncomputable def generatePattern (pattern : Pattern) (count : ℕ)
    (rand : ℕ → ℕ → ℝ) : List ℝ :=
  flat3 (fun i => patternPos pattern count genRadius (rand i) i) count

/-! ## Particle engine state (particleSystem.js, class `ParticleSystem`) -/

/-- The mutable fields of `ParticleSystem` relevant to the particle-state
claims.  `currentPositions` is the geometry position buffer
(`particles.geometry.attributes.position.array`); rendering-only fields
(scene, camera, renderer, shader material, colour/size/alpha buffers) are
not modelled except for the two configured colours. -/
structure PSState where
  particleCount : ℕ
  currentPattern : Pattern
  originalPositions : List ℝ
  targetPositions : List ℝ
  currentPositions : List ℝ
  gestureInfluence : ℝ
  gesturePosition : ℝ × ℝ
  primaryColor : ℝ × ℝ × ℝ
  secondaryColor : ℝ × ℝ × ℝ
  time : ℝ
  animationSpeed : ℝ

/-- The field values set by the `ParticleSystem` constructor (lines 7-31)
before `init()` runs `createParticles()`: 5000 particles, sphere pattern,
empty position arrays. -/
noncomputable def initialPSState : PSState :=
  { particleCount := 5000
    currentPattern := .sphere
    originalPositions := []
    targetPositions := []
    currentPositions := []
    gestureInfluence := 0
    gesturePosition := (0, 0)
    primaryColor := (0, 212 / 255, 1)
    secondaryColor := (1, 0, 212 / 255)
    time := 0
    animationSpeed := 1 }

/-- `createParticles()` (lines 69-224): allocates a fresh
`Float32Array(particleCount * 3)` position buffer, fills every slot from a
freshly generated pattern, and pushes the same values onto the freshly reset
`originalPositions` and `targetPositions` arrays.  The copy loop covers every
index of all three arrays, so all three equal the generated pattern. -/
noncomputable def createParticles (s : PSState) (rand : ℕ → ℕ → ℝ) : PSState :=
  let patternPositions := generatePattern s.currentPattern s.particleCount rand
  { s with
    originalPositions := patternPositions
    targetPositions := patternPositions
    currentPositions := patternPositions }

/-- `setPattern(pattern)` (lines 323-331): regenerate once, then overwrite the
first `particleCount * 3` entries of both `targetPositions` and
`originalPositions` in place.  The geometry position buffer is not touched. -/
noncomputable def setPattern (s : PSState) (pattern : Pattern)
    (rand : ℕ → ℕ → ℝ) : PSState :=
  let newPositions := generatePattern pattern s.particleCount rand
  { s with
    currentPattern := pattern
    targetPositions := writeFirst s.targetPositions newPositions (s.particleCount * 3)
    originalPositions := writeFirst s.originalPositions newPositions (s.particleCount * 3) }

/-- `setParticleCount(count)` (lines 355-358): store the new count, then
`createParticles()`. -/
noncomputable def setParticleCount (s : PSState) (count : ℕ)
    (rand : ℕ → ℕ → ℝ) : PSState :=
  createParticles { s with particleCount := count } rand

/-- `setColors(primary, secondary)` (lines 333-353): replaces the two colour
fields and recomputes the geometry colour attribute (an RGB gradient with an
HSL saturation/lightness boost).  That loop writes only the colour buffer; no
position array is referenced, so the position arrays are carried unchanged. -/
def setColors (s : PSState) (primary secondary : ℝ × ℝ × ℝ) : PSState :=
  { s with primaryColor := primary, secondaryColor := secondary }

/-- Scale factor of `updateGestureInfluence`:
`const scale = 0.3 + openness * 1.7` (line 407). -/
def gestureScale (openness : ℝ) : ℝ := 0.3 + openness * 1.7

/-- One axis of the dispersion jitter of `updateGestureInfluence`
(lines 412-418): when `openness > 0.7`, the axis gains
`(Math.random() - 0.5) * dispersion * 10` with
`dispersion = (openness - 0.7) * 3 * sensitivity`; otherwise nothing. -/
noncomputable def dispersionJitter (openness sensitivity r : ℝ) : ℝ :=
  if openness > 0.7 then (r - 0.5) * ((openness - 0.7) * 3 * sensitivity) * 10 else 0

/-- The target recomputed for one particle by `updateGestureInfluence`
(lines 398-427): scale the original by `gestureScale`, add the dispersion
jitter per axis (x uses the particle's first random draw, y the second, z the
third), then add the gesture pull to x and y only. -/
noncomputable def gestureTarget (openness : ℝ) (position : ℝ × ℝ)
    (sensitivity : ℝ) (rand : ℕ → ℝ) (orig : ℝ × ℝ × ℝ) : ℝ × ℝ × ℝ :=
  let scale := gestureScale openness
  let gesturePull := sensitivity * 0.3
  (orig.1 * scale + dispersionJitter openness sensitivity (rand 0)
     + (position.1 - 0.5) * 20 * gesturePull,
   orig.2.1 * scale + dispersionJitter openness sensitivity (rand 1)
     + (0.5 - position.2) * 20 * gesturePull,
   orig.2.2 * scale + dispersionJitter openness sensitivity (rand 2))

/-- The per-particle body of the `updateGestureInfluence` loop: particle `i`'s
new target, computed from its stored original position. -/
noncomputable def gestureTargetsFn (s : PSState) (openness : ℝ) (position : ℝ × ℝ)
    (sensitivity : ℝ) (rand : ℕ → ℕ → ℝ) : ℕ → ℝ × ℝ × ℝ := fun i =>
  gestureTarget openness position sensitivity (rand i)
    (s.originalPositions.getD (i * 3) 0,
     s.originalPositions.getD (i * 3 + 1) 0,
     s.originalPositions.getD (i * 3 + 2) 0)

/-- `updateGestureInfluence(openness, position, sensitivity)` (lines 391-429):
store the gesture, then overwrite `targetPositions[i*3 .. i*3+2]` for every
`i < particleCount` with the recomputed per-particle target. -/
noncomputable def updateGestureInfluence (s : PSState) (openness : ℝ)
    (position : ℝ × ℝ) (sensitivity : ℝ) (rand : ℕ → ℕ → ℝ) : PSState :=
  { s with
    gestureInfluence := openness
    gesturePosition := position
    targetPositions := writeFirst s.targetPositions
      (flat3 (gestureTargetsFn s openness position sensitivity rand) s.particleCount)
      (s.particleCount * 3) }

/-- The per-particle body of the `animate()` interpolation loop: particle
`i`'s new current position after lerping toward its target and adding the
floating offset; `time` is the already-advanced clock. -/
noncomputable def advanceFn (s : PSState) (time : ℝ) : ℕ → ℝ × ℝ × ℝ := fun i =>
  let lerpFactor := 0.05 * s.animationSpeed
  let cx := s.currentPositions.getD (i * 3) 0
  let cy := s.currentPositions.getD (i * 3 + 1) 0
  let cz := s.currentPositions.getD (i * 3 + 2) 0
  let floatSpeed := 0.5 + ((i : ℝ) / (s.particleCount : ℝ)) * 0.5
  let floatAmount := 0.1 * s.animationSpeed
  (cx + (s.targetPositions.getD (i * 3) 0 - cx) * lerpFactor,
   cy + (s.targetPositions.getD (i * 3 + 1) 0 - cy) * lerpFactor
     + Real.sin (time * floatSpeed + (i : ℝ) * 0.1) * floatAmount,
   cz + (s.targetPositions.getD (i * 3 + 2) 0 - cz) * lerpFactor)

/-- One tick of `animate()` (lines 431-469), state part only: advance time,
lerp every current position toward its target by `0.05 * animationSpeed`, and
add the sinusoidal floating offset to the y axis. -/
noncomputable def animate (s : PSState) : PSState :=
  { s with
    time := s.time + 0.016 * s.animationSpeed
    currentPositions := writeFirst s.currentPositions
      (flat3 (advanceFn s (s.time + 0.016 * s.animationSpeed)) s.particleCount)
      (s.particleCount * 3) }

/-- `reset()` (lines 480-494), state part: zero the gesture and copy
`originalPositions` back over `targetPositions` in place. -/
def reset (s : PSState) : PSState :=
  { s with
    gestureInfluence := 0
    gesturePosition := (0.5, 0.5)
    targetPositions := writeFirst s.targetPositions s.originalPositions (s.particleCount * 3) }

/-- The length invariant of the three per-particle position arrays. -/
def PSInvariant (s : PSState) : Prop :=
  s.originalPositions.length = s.particleCount * 3 ∧
  s.targetPositions.length = s.particleCount * 3 ∧
  s.currentPositions.length = s.particleCount * 3

/-! ## Gesture estimator (gestureDetector.js, class `GestureDetector`) -/

/-- One normalized hand keypoint supplied by the external detector. -/
structure Landmark where
  x : ℝ
  y : ℝ
  z : ℝ

/-- `distance(p1, p2)` (gestureDetector.js lines 215-220). -/
noncomputable def landmarkDistance (p1 p2 : Landmark) : ℝ :=
  Real.sqrt ((p1.x - p2.x) ^ 2 + (p1.y - p2.y) ^ 2 + (p1.z - p2.z) ^ 2)

/-- Palm centre: mean of wrist (0), index MCP (5) and pinky MCP (17)
(lines 169-172). -/
noncomputable def palmCenter (lm : ℕ → Landmark) : ℝ × ℝ :=
  (((lm 0).x + (lm 5).x + (lm 17).x) / 3,
   ((lm 0).y + (lm 5).y + (lm 17).y) / 3)

/-- Fingertip landmark indices (line 175). -/
def fingerTips : List ℕ := [4, 8, 12, 16, 20]

/-- Base-knuckle landmark indices; the thumb uses landmark 1 (line 176). -/
def fingerMCPs : List ℕ := [1, 5, 9, 13, 17]

/-- Normalized extension of one finger (lines 185-192):
`min(tipToMCP / (mcpToWrist * 1.5), 1)`. -/
noncomputable def extensionScore (lm : ℕ → Landmark) (tip mcp : ℕ) : ℝ :=
  min (landmarkDistance (lm tip) (lm mcp) / (landmarkDistance (lm mcp) (lm 0) * 1.5)) 1

/-- Sum of the five per-finger extensions (lines 178-198). -/
noncomputable def totalExtension (lm : ℕ → Landmark) : ℝ :=
  ((fingerTips.zip fingerMCPs).map (fun p => extensionScore lm p.1 p.2)).sum

/-- Raw openness before clamping (line 201):
`Math.pow(totalExtension / fingerTips.length, 0.8)`. -/
noncomputable def rawOpenness (lm : ℕ → Landmark) : ℝ :=
  (totalExtension lm / (fingerTips.length : ℝ)) ^ (0.8 : ℝ)

/-- Result of `analyzeGesture(landmarks)` (lines 155-213). -/
structure RawGesture where
  openness : ℝ
  posX : ℝ
  posY : ℝ

/-- `analyzeGesture` (lines 155-213): clamp the raw openness to `[0,1]`,
position is the palm centre. -/
noncomputable def analyzeGesture (lm : ℕ → Landmark) : RawGesture :=
  { openness := max 0 (min 1 (rawOpenness lm))
    posX := (palmCenter lm).1
    posY := (palmCenter lm).2 }

/-- The mutable state of `GestureDetector` relevant to the estimator claims:
the emitted gesture tuple, the smoothing memory, the presence flag of the
previous processed frame, and the smoothing configuration. -/
structure GDState where
  opennessCur : ℝ
  posCurX : ℝ
  posCurY : ℝ
  isDetected : Bool
  confidence : ℝ
  prevOpenness : ℝ
  prevPosX : ℝ
  prevPosY : ℝ
  wasHandDetected : Bool
  smoothingFactor : ℝ
  sensitivity : ℝ

/-- Constructor state (lines 22-43).  `wasHandDetected` is never initialized
in the source; JS `undefined` is falsy in both tests that read it, so it is
modelled as `false`. -/
noncomputable def initGDState : GDState :=
  { opennessCur := 0.5
    posCurX := 0.5
    posCurY := 0.5
    isDetected := false
    confidence := 0
    prevOpenness := 0.5
    prevPosX := 0.5
    prevPosY := 0.5
    wasHandDetected := false
    smoothingFactor := 0.3
    sensitivity := 1 }

/-- Edge-triggered notifications of `onResults`. -/
inductive GEvent
  | handDetected
  | handLost
deriving DecidableEq

/-- Hand-present branch of `onResults` (lines 96-133), state part: smooth the
raw gesture from the previous smoothed values, copy the result into the
smoothing memory, mark detected, record confidence. -/
noncomputable def handStep (s : GDState) (lm : ℕ → Landmark) (score : ℝ) : GDState :=
  let g := analyzeGesture lm
  let o := lerp s.prevOpenness g.openness s.smoothingFactor
  let px := lerp s.prevPosX g.posX s.smoothingFactor
  let py := lerp s.prevPosY g.posY s.smoothingFactor
  { s with
    opennessCur := o
    posCurX := px
    posCurY := py
    isDetected := true
    confidence := score
    prevOpenness := o
    prevPosX := px
    prevPosY := py
    wasHandDetected := true }

/-- No-hand branch of `onResults` (lines 134-152), state part: relax the
emitted tuple toward neutral with factor 0.05; the smoothing memory
(`previousOpenness`, `previousPosition`) is not touched. -/
noncomputable def noHandStep (s : GDState) : GDState :=
  { s with
    isDetected := false
    wasHandDetected := false
    opennessCur := lerp s.opennessCur 0.5 0.05
    posCurX := lerp s.posCurX 0.5 0.05
    posCurY := lerp s.posCurY 0.5 0.05 }

/-- Events fired by the hand-present branch: `onHandDetected` exactly when the
previous frame had no hand (lines 129-133). -/
def handBranchEvents (was : Bool) : List GEvent :=
  if was then [] else [.handDetected]

/-- Events fired by the no-hand branch: `onHandLost` exactly when the previous
frame had a hand (lines 136-138). -/
def noHandBranchEvents (was : Bool) : List GEvent :=
  if was then [.handLost] else []

/-- The events fired by one `onResults` call as a function of the previous
presence flag and the current frame's presence. -/
def eventsAt (was det : Bool) : List GEvent :=
  if det then handBranchEvents was else noHandBranchEvents was

/-- One `onResults(results)` call (lines 92-153): input is the frame's
landmark set together with the handedness score, or `none` when no hand is
present.  Returns the new state and the edge-triggered notifications fired. -/
noncomputable def onResults (s : GDState)
    (input : Option ((ℕ → Landmark) × ℝ)) : GDState × List GEvent :=
  match input with
  | some (lm, score) => (handStep s lm score, handBranchEvents s.wasHandDetected)
  | none => (noHandStep s, noHandBranchEvents s.wasHandDetected)

/-- Run `onResults` over a sequence of frames, collecting the events each
frame fired. -/
noncomputable def runDetector (s : GDState) :
    List (Option ((ℕ → Landmark) × ℝ)) → List (List GEvent)
  | [] => []
  | input :: rest =>
      let r := onResults s input
      r.2 :: runDetector r.1 rest

/-- The smoothing factor produced by `setSensitivity` (lines 318-321):
`0.2 + (1 - sensitivity) * 0.3`. -/
noncomputable def smoothingFactorFor (sensitivity : ℝ) : ℝ :=
  0.2 + (1 - sensitivity) * 0.3

/-- `setSensitivity(sensitivity)` (lines 318-321). -/
noncomputable def setSensitivity (s : GDState) (sensitivity : ℝ) : GDState :=
  { s with
    sensitivity := sensitivity
    smoothingFactor := smoothingFactorFor sensitivity }

/-! ## Binary-threshold variant (particles/static/particles/js/main.js) -/

namespace Binary

/-- `distance(p1, p2)` (main.js lines 260-265). -/
noncomputable def distance (p1 p2 : Landmark) : ℝ :=
  Real.sqrt ((p1.x - p2.x) ^ 2 + (p1.y - p2.y) ^ 2 + (p1.z - p2.z) ^ 2)

/-- Number of extended fingers (lines 235-248): the thumb by tip-to-MCP
distance above 0.1 (landmarks 4 and 2), each other finger by its tip's y
being smaller than its MCP's y. -/
noncomputable def extendedCount (lm : ℕ → Landmark) : ℕ :=
  (if distance (lm 4) (lm 2) > 0.1 then 1 else 0) +
  (if (lm 8).y < (lm 5).y then 1 else 0) +
  (if (lm 12).y < (lm 9).y then 1 else 0) +
  (if (lm 16).y < (lm 13).y then 1 else 0) +
  (if (lm 20).y < (lm 17).y then 1 else 0)

/-- Result of `detectHandGesture`: the strings `'open'` / `'closed'`. -/
inductive HandState
  | openHand
  | closedHand
deriving DecidableEq

/-- `detectHandGesture(landmarks)` (lines 221-257): open iff at least 3 of
the 5 fingers are extended. -/
noncomputable def detectHandGesture (lm : ℕ → Landmark) : HandState :=
  if 3 ≤ extendedCount lm then .openHand else .closedHand

/-- The gesture-relevant globals of main.js: `isHandOpen`, `targetScale`,
`currentScale`, plus the particle buffers scaled by `animate`. -/
structure BState where
  isHandOpen : Bool
  targetScale : ℝ
  currentScale : ℝ
  initialPositions : List ℝ
  positions : List ℝ

/-- `onHandsResults(results)` (lines 197-218): open hand sets target scale
1.5, closed fist 0.3, no hand resets the target to the neutral 1.0. -/
noncomputable def onHandsResults (st : BState) (input : Option (ℕ → Landmark)) : BState :=
  match input with
  | some lm =>
      match detectHandGesture lm with
      | .openHand => { st with isHandOpen := true, targetScale := 1.5 }
      | .closedHand => { st with isHandOpen := false, targetScale := 0.3 }
  | none => { st with targetScale := 1.0 }

/-- One tick of `animate()` (lines 119-149), state part: move the scale
toward the target by the fixed factor 0.05, then set every position to its
initial position times the new scale. -/
noncomputable def animate (st : BState) : BState :=
  let newScale := st.currentScale + (st.targetScale - st.currentScale) * 0.05
  { st with
    currentScale := newScale
    positions := st.initialPositions.map (fun p => p * newScale) }

end Binary

/-! ## Concrete fixtures used by witnesses -/

/-- A one-particle engine state satisfying the length invariant. -/
noncomputable def ps1 : PSState :=
  { particleCount := 1
    currentPattern := .cube
    originalPositions := [1, 2, 3]
    targetPositions := [4, 5, 6]
    currentPositions := [7, 8, 9]
    gestureInfluence := 0
    gesturePosition := (0, 0)
    primaryColor := (0, 0, 0)
    secondaryColor := (0, 0, 0)
    time := 0
    animationSpeed := 1 }

/-- A hand whose five fingers are all fully straight: wrist at the origin,
every base knuckle at distance 1, every tip 1.5 beyond its knuckle. -/
noncomputable def lmStraight : ℕ → Landmark := fun i =>
  if i = 0 then ⟨0, 0, 0⟩
  else if i = 4 ∨ i = 8 ∨ i = 12 ∨ i = 16 ∨ i = 20 then ⟨2.5, 0, 0⟩
  else ⟨1, 0, 0⟩

/-- A one-particle binary-variant state. -/
noncomputable def bs1 : Binary.BState :=
  { isHandOpen := false
    targetScale := 1
    currentScale := 1
    initialPositions := [2]
    positions := [2] }

/-! ## Library lemmas about the helpers -/

theorem flat3_succ (f : ℕ → ℝ × ℝ × ℝ) (n : ℕ) :
    flat3 f (n + 1) = flat3 f n ++ [(f n).1, (f n).2.1, (f n).2.2] := by
  simp [flat3, List.range_succ]

theorem flat3_length (f : ℕ → ℝ × ℝ × ℝ) (n : ℕ) : (flat3 f n).length = n * 3 := by
  induction n with
  | zero => simp [flat3]
  | succ k ih => rw [flat3_succ, List.length_append, ih]; simp; ring

theorem flat3_getD (f : ℕ → ℝ × ℝ × ℝ) (n i : ℕ) (h : i < n) :
    (flat3 f n).getD (i * 3) 0 = (f i).1 ∧
    (flat3 f n).getD (i * 3 + 1) 0 = (f i).2.1 ∧
    (flat3 f n).getD (i * 3 + 2) 0 = (f i).2.2 := by
  induction n with
  | zero => omega
  | succ k ih =>
      have hlen : (flat3 f k).length = k * 3 := flat3_length f k
      rcases Nat.lt_succ_iff_lt_or_eq.mp h with h' | rfl
      · rw [flat3_succ]
        refine ⟨?_, ?_, ?_⟩ <;>
          rw [List.getD_append _ _ _ _ (by rw [hlen]; omega)] <;>
          [exact (ih h').1; exact (ih h').2.1; exact (ih h').2.2]
      · rw [flat3_succ]
        have e0 : i * 3 - (flat3 f i).length = 0 := by rw [hlen]; omega
        have e1 : i * 3 + 1 - (flat3 f i).length = 1 := by rw [hlen]; omega
        have e2 : i * 3 + 2 - (flat3 f i).length = 2 := by rw [hlen]; omega
        refine ⟨?_, ?_, ?_⟩
        · rw [List.getD_append_right _ _ _ _ (by rw [hlen]; try omega)]
          try rw [e0]
          try rfl
        · rw [List.getD_append_right _ _ _ _ (by rw [hlen]; try omega)]
          try rw [e1]
          try rfl
        · rw [List.getD_append_right _ _ _ _ (by rw [hlen]; try omega)]
          try rw [e2]
          try rfl

theorem flat3_congr (f g : ℕ → ℝ × ℝ × ℝ) (n : ℕ) (h : ∀ i, i < n → f i = g i) :
    flat3 f n = flat3 g n := by
  induction n with
  | zero => rfl
  | succ k ih =>
      rw [flat3_succ, flat3_succ, ih (fun i hi => h i (by omega)), h k (by omega)]

theorem writeFirst_length (dst src : List ℝ) (m : ℕ)
    (hd : dst.length = m) (hs : m ≤ src.length) :
    (writeFirst dst src m).length = m := by
  simp [writeFirst]
  omega

theorem writeFirst_full (dst src : List ℝ) (m : ℕ)
    (hd : dst.length = m) (hs : src.length = m) :
    writeFirst dst src m = src := by
  rw [writeFirst, List.take_of_length_le (le_of_eq hs),
    List.drop_eq_nil_of_le (le_of_eq hd), List.append_nil]

theorem writeFirst_getD (dst src : List ℝ) (m j : ℕ)
    (hj : j < m) (hs : m ≤ src.length) :
    (writeFirst dst src m).getD j 0 = src.getD j 0 := by
  have h1 : j < (List.take m src).length := by simp; omega
  rw [writeFirst, List.getD_append _ _ _ _ h1, List.getD_eq_getElem _ _ h1,
    List.getD_eq_getElem _ _ (show j < src.length by omega)]
  exact List.getElem_take src

theorem generatePattern_length (pattern : Pattern) (count : ℕ) (rand : ℕ → ℕ → ℝ) :
    (generatePattern pattern count rand).length = count * 3 :=
  flat3_length _ _

theorem createParticles_invariant (s : PSState) (rand : ℕ → ℕ → ℝ) :
    PSInvariant (createParticles s rand) :=
  ⟨generatePattern_length _ _ _, generatePattern_length _ _ _,
   generatePattern_length _ _ _⟩

theorem ps1_invariant : PSInvariant ps1 :=
  ⟨by simp [ps1], by simp [ps1], by simp [ps1]⟩

/-! ## Particle-engine claims -/

/-- Claim C4: the invariant `|originalPositions| = |targetPositions| =
|currentPositions| = particleCount * 3` holds after construction and is
preserved by setPattern, setParticleCount, setColors, updateGestureInfluence,
animate and reset; on a particle-count change all three arrays are
reallocated together to the new length. -/
theorem claim4_length_invariant (s : PSState) (h : PSInvariant s) :
    (∀ rand, PSInvariant (createParticles initialPSState rand)) ∧
    (∀ rand, PSInvariant (createParticles s rand)) ∧
    (∀ pattern rand, PSInvariant (setPattern s pattern rand)) ∧
    (∀ count rand, PSInvariant (setParticleCount s count rand)) ∧
    (∀ count rand,
      (setParticleCount s count rand).originalPositions.length = count * 3 ∧
      (setParticleCount s count rand).targetPositions.length = count * 3 ∧
      (setParticleCount s count rand).currentPositions.length = count * 3) ∧
    (∀ primary secondary, PSInvariant (setColors s primary secondary)) ∧
    (∀ openness position sensitivity rand,
      PSInvariant (updateGestureInfluence s openness position sensitivity rand)) ∧
    PSInvariant (animate s) ∧
    PSInvariant (reset s) := by
  obtain ⟨h1, h2, h3⟩ := h
  refine ⟨fun rand => createParticles_invariant _ rand,
          fun rand => createParticles_invariant _ rand,
          fun pattern rand => ⟨?_, ?_, h3⟩,
          fun count rand => createParticles_invariant _ rand,
          fun count rand => createParticles_invariant _ rand,
          fun primary secondary => ⟨h1, h2, h3⟩,
          fun openness position sensitivity rand => ⟨h1, ?_, h3⟩,
          ⟨h1, h2, ?_⟩,
          ⟨h1, ?_, h3⟩⟩
  · exact writeFirst_length _ _ _ h1 (le_of_eq (generatePattern_length _ _ _).symm)
  · exact writeFirst_length _ _ _ h2 (le_of_eq (generatePattern_length _ _ _).symm)
  · exact writeFirst_length _ _ _ h2 (le_of_eq (flat3_length _ _).symm)
  · exact writeFirst_length _ _ _ h3 (le_of_eq (flat3_length _ _).symm)
  · exact writeFirst_length _ _ _ h2 (le_of_eq h1.symm)

theorem claim4_witness : PSInvariant (reset ps1) :=
  (claim4_length_invariant ps1 ps1_invariant).2.2.2.2.2.2.2.2

/-- Claim C3: after `setPattern(kind)` the original-position array and the
target-position array are element-wise equal (both written from the same
freshly generated pattern), while the geometry position buffer is unchanged. -/
theorem claim3_setPattern_regenerates (s : PSState) (pattern : Pattern)
    (rand : ℕ → ℕ → ℝ) (h : PSInvariant s) :
    (setPattern s pattern rand).originalPositions
      = (setPattern s pattern rand).targetPositions ∧
    (setPattern s pattern rand).originalPositions
      = generatePattern pattern s.particleCount rand ∧
    (setPattern s pattern rand).currentPositions = s.currentPositions := by
  obtain ⟨h1, h2, h3⟩ := h
  have hg : (generatePattern pattern s.particleCount rand).length = s.particleCount * 3 :=
    generatePattern_length _ _ _
  have e1 : (setPattern s pattern rand).originalPositions
      = generatePattern pattern s.particleCount rand :=
    writeFirst_full _ _ _ h1 hg
  have e2 : (setPattern s pattern rand).targetPositions
      = generatePattern pattern s.particleCount rand :=
    writeFirst_full _ _ _ h2 hg
  exact ⟨e1.trans e2.symm, e1, rfl⟩

theorem claim3_witness :
    (setPattern ps1 Pattern.sphere (fun _ _ => 0)).originalPositions
      = (setPattern ps1 Pattern.sphere (fun _ _ => 0)).targetPositions :=
  (claim3_setPattern_regenerates ps1 Pattern.sphere (fun _ _ => 0) ps1_invariant).1

theorem updateGestureInfluence_targetPositions (s : PSState) (openness : ℝ)
    (position : ℝ × ℝ) (sensitivity : ℝ) (rand : ℕ → ℕ → ℝ) :
    (updateGestureInfluence s openness position sensitivity rand).targetPositions
      = writeFirst s.targetPositions
          (flat3 (gestureTargetsFn s openness position sensitivity rand) s.particleCount)
          (s.particleCount * 3) := rfl

theorem gestureTarget_closed (rr : ℕ → ℝ) (ox oy oz : ℝ) :
    gestureTarget 0 (0.5, 0.5) 1 rr (ox, oy, oz) = (0.3 * ox, 0.3 * oy, 0.3 * oz) := by
  simp only [gestureTarget, gestureScale, dispersionJitter, Prod.mk.injEq]
  norm_num
  exact ⟨mul_comm _ _, mul_comm _ _, mul_comm _ _⟩

/-- Claim C1: with `openness = 0`, `position = (0.5, 0.5)`, `sensitivity = 1`
the recomputed target is exactly 0.3 times the particle's original position;
the scale factor at `openness = 1` is exactly 2.0 (the pre-jitter target is
`2 * original`); the dispersion jitter is 0 whenever `openness ≤ 0.7`; and at
`openness = 1` the per-axis jitter can be nonzero and is bounded by
`3 * sensitivity * 10` for any random draw in `[0, 1]`. -/
theorem claim1_applyGesture (s : PSState) (rand : ℕ → ℕ → ℝ) (i : ℕ)
    (h : PSInvariant s) (hi : i < s.particleCount)
    (sens r : ℝ) (hs : 0 ≤ sens) (hr0 : 0 ≤ r) (hr1 : r ≤ 1) :
    ((updateGestureInfluence s 0 (0.5, 0.5) 1 rand).targetPositions.getD (i * 3) 0
        = 0.3 * s.originalPositions.getD (i * 3) 0 ∧
     (updateGestureInfluence s 0 (0.5, 0.5) 1 rand).targetPositions.getD (i * 3 + 1) 0
        = 0.3 * s.originalPositions.getD (i * 3 + 1) 0 ∧
     (updateGestureInfluence s 0 (0.5, 0.5) 1 rand).targetPositions.getD (i * 3 + 2) 0
        = 0.3 * s.originalPositions.getD (i * 3 + 2) 0) ∧
    gestureScale 0 = 0.3 ∧
    gestureScale 1 = 2 ∧
    (∀ openness sensitivity rv, openness ≤ 0.7 →
      dispersionJitter openness sensitivity rv = 0) ∧
    |dispersionJitter 1 sens r| ≤ 3 * sens * 10 ∧
    dispersionJitter 1 1 0 ≠ 0 := by
  obtain ⟨h1, h2, h3⟩ := h
  have hm : s.particleCount * 3
      ≤ (flat3 (gestureTargetsFn s 0 (0.5, 0.5) 1 rand) s.particleCount).length :=
    le_of_eq (flat3_length _ _).symm
  have hget := flat3_getD (gestureTargetsFn s 0 (0.5, 0.5) 1 rand) s.particleCount i hi
  have hfn : gestureTargetsFn s 0 (0.5, 0.5) 1 rand i
      = (0.3 * s.originalPositions.getD (i * 3) 0,
         0.3 * s.originalPositions.getD (i * 3 + 1) 0,
         0.3 * s.originalPositions.getD (i * 3 + 2) 0) := by
    unfold gestureTargetsFn
    exact gestureTarget_closed _ _ _ _
  refine ⟨⟨?_, ?_, ?_⟩, by norm_num [gestureScale], by norm_num [gestureScale],
          ?_, ?_, ?_⟩
  · rw [updateGestureInfluence_targetPositions,
      writeFirst_getD _ _ _ _ (by omega) hm, hget.1, hfn]
  · rw [updateGestureInfluence_targetPositions,
      writeFirst_getD _ _ _ _ (by omega) hm, hget.2.1, hfn]
  · rw [updateGestureInfluence_targetPositions,
      writeFirst_getD _ _ _ _ (by omega) hm, hget.2.2, hfn]
  · intro openness sensitivity rv ho
    unfold dispersionJitter
    rw [if_neg (not_lt.mpr ho)]
  · have hj : dispersionJitter 1 sens r = (r - 0.5) * ((1 - 0.7) * 3 * sens) * 10 := by
      unfold dispersionJitter
      rw [if_pos (by norm_num)]
    have habs : |r - 0.5| ≤ 0.5 := abs_le.mpr ⟨by linarith, by linarith⟩
    have hco : (0 : ℝ) ≤ (1 - 0.7) * 3 * sens := by nlinarith
    have he : |(r - 0.5) * ((1 - 0.7) * 3 * sens) * 10|
        = |r - 0.5| * ((1 - 0.7) * 3 * sens) * 10 := by
      rw [abs_mul, abs_mul, abs_of_nonneg hco,
        abs_of_nonneg (by norm_num : (0 : ℝ) ≤ (10 : ℝ))]
    rw [hj, he]
    nlinarith [habs, hs, mul_le_mul_of_nonneg_right habs hco]
  · unfold dispersionJitter
    rw [if_pos (by norm_num)]
    norm_num

theorem claim1_witness : |dispersionJitter 1 1 (0 : ℝ)| ≤ 3 * 1 * 10 :=
  (claim1_applyGesture ps1 (fun _ _ => 0) 0 ps1_invariant (by simp [ps1]) 1 0
    (by norm_num) le_rfl (by norm_num)).2.2.2.2.1

/-- Claim C2 counterexample: the spiral generator includes uniform random
jitter (lines 263, 265), so two calls with the same kind, count and radius but
different random draws give different arrays: with one particle, the draw
`1/2` puts particle 0's x at 3 while the draw `0` puts it at 2. -/
theorem claim2_counterexample :
    generatePattern Pattern.spiral 1 (fun _ _ => 1 / 2)
      ≠ generatePattern Pattern.spiral 1 (fun _ _ => 0) := by
  intro hcontra
  have h0 := congrArg (fun l => l.getD 0 0) hcontra
  simp only [generatePattern, flat3, patternPos, genRadius, List.range_succ,
    List.range_zero, List.nil_append, List.flatMap_cons, List.flatMap_nil,
    List.append_nil, List.getD_cons_zero] at h0
  norm_num [Real.cos_zero] at h0

theorem patternPos_spiral_draws (count : ℕ) (radius : ℝ) (r r' : ℕ → ℝ) (i : ℕ)
    (h0 : r 0 = r' 0) (h1 : r 1 = r' 1) :
    patternPos Pattern.spiral count radius r i
      = patternPos Pattern.spiral count radius r' i := by
  simp only [patternPos]
  rw [h0, h1]

theorem patternPos_dna_draws (count : ℕ) (radius : ℝ) (r r' : ℕ → ℝ) (i : ℕ)
    (h0 : r 0 = r' 0) (h1 : r 1 = r' 1) :
    patternPos Pattern.dna count radius r i
      = patternPos Pattern.dna count radius r' i := by
  simp only [patternPos]
  rw [h0, h1]

theorem patternPos_wave_draws (count : ℕ) (radius : ℝ) (r r' : ℕ → ℝ) (i : ℕ)
    (h0 : r 0 = r' 0) :
    patternPos Pattern.wave count radius r i
      = patternPos Pattern.wave count radius r' i := by
  simp only [patternPos]
  rw [h0]

/-- Claim C2 amended: for spiral, wave and dna the generator is deterministic
only as a function of the random draws it consumes: two calls with the same
kind, count and radius return arrays of the same length; the coordinates that
take no jitter (y for spiral and dna, x and z for wave) agree regardless of
the draws; and the arrays are bit-identical whenever the consumed draws
coincide (draws 0 and 1 of each particle for spiral and dna, draw 0 for
wave), in particular when the two streams are equal. -/
theorem claim2_amended (pattern : Pattern) (count : ℕ) (rand rand' : ℕ → ℕ → ℝ)
    (hk : pattern = Pattern.spiral ∨ pattern = Pattern.wave ∨ pattern = Pattern.dna) :
    (generatePattern pattern count rand).length
      = (generatePattern pattern count rand').length ∧
    (rand = rand' → generatePattern pattern count rand
      = generatePattern pattern count rand') ∧
    ((pattern = Pattern.spiral ∨ pattern = Pattern.dna) →
      (∀ i, i < count → rand i 0 = rand' i 0 ∧ rand i 1 = rand' i 1) →
      generatePattern pattern count rand = generatePattern pattern count rand') ∧
    (pattern = Pattern.wave →
      (∀ i, i < count → rand i 0 = rand' i 0) →
      generatePattern pattern count rand = generatePattern pattern count rand') ∧
    ((pattern = Pattern.spiral ∨ pattern = Pattern.dna) → ∀ i,
      (patternPos pattern count genRadius (rand i) i).2.1
        = (patternPos pattern count genRadius (rand' i) i).2.1) ∧
    (pattern = Pattern.wave → ∀ i,
      (patternPos pattern count genRadius (rand i) i).1
        = (patternPos pattern count genRadius (rand' i) i).1 ∧
      (patternPos pattern count genRadius (rand i) i).2.2
        = (patternPos pattern count genRadius (rand' i) i).2.2) := by
  refine ⟨by rw [generatePattern_length, generatePattern_length],
          fun he => by rw [he], ?_, ?_, ?_, ?_⟩
  · rintro (rfl | rfl) hdraws
    · exact flat3_congr _ _ _ (fun i hi =>
        patternPos_spiral_draws _ _ _ _ i (hdraws i hi).1 (hdraws i hi).2)
    · exact flat3_congr _ _ _ (fun i hi =>
        patternPos_dna_draws _ _ _ _ i (hdraws i hi).1 (hdraws i hi).2)
  · rintro rfl hdraws
    exact flat3_congr _ _ _ (fun i hi => patternPos_wave_draws _ _ _ _ i (hdraws i hi))
  · rintro (rfl | rfl) i <;> rfl
  · rintro rfl i
    exact ⟨rfl, rfl⟩

theorem claim2_amended_witness :
    (generatePattern Pattern.spiral 2 (fun _ _ => 0)).length
      = (generatePattern Pattern.spiral 2 (fun _ _ => 1 / 2)).length :=
  (claim2_amended Pattern.spiral 2 (fun _ _ => 0) (fun _ _ => 1 / 2) (Or.inl rfl)).1

/-! ## Gesture-estimator lemmas -/

theorem noHandStep_opennessCur (s : GDState) :
    (noHandStep s).opennessCur = lerp s.opennessCur 0.5 0.05 := rfl

theorem noHandStep_posCurX (s : GDState) :
    (noHandStep s).posCurX = lerp s.posCurX 0.5 0.05 := rfl

theorem noHandStep_posCurY (s : GDState) :
    (noHandStep s).posCurY = lerp s.posCurY 0.5 0.05 := rfl

/-- Closed form of `K` consecutive no-hand frames: the distance to the
neutral values shrinks by the exact factor `1 - 0.05 = 0.95` each frame, and
the smoothing memory is untouched. -/
theorem noHandStep_iter (s : GDState) (K : ℕ) :
    (noHandStep^[K] s).opennessCur - 0.5 = 0.95 ^ K * (s.opennessCur - 0.5) ∧
    (noHandStep^[K] s).posCurX - 0.5 = 0.95 ^ K * (s.posCurX - 0.5) ∧
    (noHandStep^[K] s).posCurY - 0.5 = 0.95 ^ K * (s.posCurY - 0.5) ∧
    (noHandStep^[K] s).prevOpenness = s.prevOpenness ∧
    (noHandStep^[K] s).prevPosX = s.prevPosX ∧
    (noHandStep^[K] s).prevPosY = s.prevPosY ∧
    (noHandStep^[K] s).smoothingFactor = s.smoothingFactor := by
  induction K with
  | zero => simp
  | succ k ih =>
      obtain ⟨i1, i2, i3, i4, i5, i6, i7⟩ := ih
      rw [Function.iterate_succ_apply']
      refine ⟨?_, ?_, ?_, ?_, ?_, ?_, ?_⟩
      · rw [noHandStep_opennessCur, lerp, pow_succ]
        linear_combination (0.95 : ℝ) * i1
      · rw [noHandStep_posCurX, lerp, pow_succ]
        linear_combination (0.95 : ℝ) * i2
      · rw [noHandStep_posCurY, lerp, pow_succ]
        linear_combination (0.95 : ℝ) * i3
      · exact i4
      · exact i5
      · exact i6
      · exact i7

theorem onResults_wasHand (s : GDState) (input : Option ((ℕ → Landmark) × ℝ)) :
    ((onResults s input).1).wasHandDetected = input.isSome := by
  match input with
  | none => rfl
  | some (lm, score) => rfl

theorem onResults_events (s : GDState) (input : Option ((ℕ → Landmark) × ℝ)) :
    (onResults s input).2 = eventsAt s.wasHandDetected input.isSome := by
  match input with
  | none => rfl
  | some (lm, score) => rfl

/-- The events of frame `i` of a run depend exactly on the presence flag of
frame `i` and the flag of the frame before it (the initial state at `i = 0`). -/
theorem runDetector_getD (s : GDState) (inputs : List (Option ((ℕ → Landmark) × ℝ)))
    (i : ℕ) (hi : i < inputs.length) :
    (runDetector s inputs).getD i []
      = eventsAt (if i = 0 then s.wasHandDetected else (inputs.getD (i - 1) none).isSome)
          ((inputs.getD i none).isSome) := by
  induction inputs generalizing s i with
  | nil => exact absurd hi (by simp)
  | cons input rest ih =>
      cases i with
      | zero =>
          have lhs0 : (runDetector s (input :: rest)).getD 0 []
              = (onResults s input).2 := rfl
          rw [lhs0, onResults_events]
          simp
      | succ j =>
          have hj : j < rest.length := by
            simp at hi
            omega
          have step := ih (onResults s input).1 j hj
          have lhs : (runDetector s (input :: rest)).getD (j + 1) []
              = (runDetector (onResults s input).1 rest).getD j [] := rfl
          rw [lhs, step, onResults_wasHand]
          cases j with
          | zero => simp
          | succ jj => simp

/-! ## Gesture-estimator claims -/

/-- Claim C5: a processed frame with no hand present relaxes openness toward
0.5 and position toward (0.5, 0.5) by the fixed decay factor 0.05 and sets
`detected` to false; over `K` consecutive no-hand frames the distances to the
neutral values follow the exact geometric law `0.95 ^ K`, decrease
monotonically, and never overshoot (the deviation never changes sign). -/
theorem claim5_noHand_relaxation (s : GDState) (K : ℕ) :
    (onResults s none).1 = noHandStep s ∧
    (noHandStep s).isDetected = false ∧
    (noHandStep s).opennessCur = lerp s.opennessCur 0.5 0.05 ∧
    (noHandStep^[K] s).opennessCur - 0.5 = 0.95 ^ K * (s.opennessCur - 0.5) ∧
    (noHandStep^[K] s).posCurX - 0.5 = 0.95 ^ K * (s.posCurX - 0.5) ∧
    (noHandStep^[K] s).posCurY - 0.5 = 0.95 ^ K * (s.posCurY - 0.5) ∧
    |(noHandStep^[K + 1] s).opennessCur - 0.5| ≤ |(noHandStep^[K] s).opennessCur - 0.5| ∧
    |(noHandStep^[K + 1] s).posCurX - 0.5| ≤ |(noHandStep^[K] s).posCurX - 0.5| ∧
    |(noHandStep^[K + 1] s).posCurY - 0.5| ≤ |(noHandStep^[K] s).posCurY - 0.5| ∧
    0 ≤ ((noHandStep^[K] s).opennessCur - 0.5) * (s.opennessCur - 0.5) ∧
    0 ≤ ((noHandStep^[K] s).posCurX - 0.5) * (s.posCurX - 0.5) ∧
    0 ≤ ((noHandStep^[K] s).posCurY - 0.5) * (s.posCurY - 0.5) := by
  obtain ⟨i1, i2, i3, _, _, _, _⟩ := noHandStep_iter s K
  obtain ⟨j1, j2, j3, _, _, _, _⟩ := noHandStep_iter s (K + 1)
  have hK : (0 : ℝ) ≤ 0.95 ^ K := pow_nonneg (by norm_num) K
  have hK1 : (0 : ℝ) ≤ 0.95 ^ (K + 1) := pow_nonneg (by norm_num) (K + 1)
  have hpow : (0.95 : ℝ) ^ (K + 1) ≤ (0.95 : ℝ) ^ K :=
    pow_le_pow_of_le_one (by norm_num) (by norm_num) (Nat.le_succ K)
  refine ⟨rfl, rfl, rfl, i1, i2, i3, ?_, ?_, ?_, ?_, ?_, ?_⟩
  · rw [i1, j1, abs_mul, abs_mul, abs_of_nonneg hK1, abs_of_nonneg hK]
    exact mul_le_mul_of_nonneg_right hpow (abs_nonneg _)
  · rw [i2, j2, abs_mul, abs_mul, abs_of_nonneg hK1, abs_of_nonneg hK]
    exact mul_le_mul_of_nonneg_right hpow (abs_nonneg _)
  · rw [i3, j3, abs_mul, abs_mul, abs_of_nonneg hK1, abs_of_nonneg hK]
    exact mul_le_mul_of_nonneg_right hpow (abs_nonneg _)
  · rw [i1, mul_assoc]
    exact mul_nonneg hK (mul_self_nonneg _)
  · rw [i2, mul_assoc]
    exact mul_nonneg hK (mul_self_nonneg _)
  · rw [i3, mul_assoc]
    exact mul_nonneg hK (mul_self_nonneg _)

/-- Claim C6: HandDetected fires exactly when the frame has a hand and the
previous frame (or the initial state) had none, HandLost exactly when the
frame has no hand and the previous frame had one; the concrete detection
sequence [no, no, yes, yes, no] fires exactly one HandDetected at index 2 and
one HandLost at index 4. -/
theorem claim6_edge_triggers (s : GDState)
    (inputs : List (Option ((ℕ → Landmark) × ℝ))) (i : ℕ) (hi : i < inputs.length) :
    ((GEvent.handDetected ∈ (runDetector s inputs).getD i [] ↔
        (inputs.getD i none).isSome = true ∧
        (if i = 0 then s.wasHandDetected
         else (inputs.getD (i - 1) none).isSome) = false) ∧
     (GEvent.handLost ∈ (runDetector s inputs).getD i [] ↔
        (inputs.getD i none).isSome = false ∧
        (if i = 0 then s.wasHandDetected
         else (inputs.getD (i - 1) none).isSome) = true)) ∧
    runDetector initGDState
        [none, none, some (fun _ => ⟨0, 0, 0⟩, 1), some (fun _ => ⟨0, 0, 0⟩, 1), none]
      = [[], [], [GEvent.handDetected], [], [GEvent.handLost]] := by
  constructor
  · rw [runDetector_getD s inputs i hi]
    generalize (if i = 0 then s.wasHandDetected
      else (inputs.getD (i - 1) none).isSome) = was
    generalize (inputs.getD i none).isSome = det
    cases was <;> cases det <;>
      simp [eventsAt, handBranchEvents, noHandBranchEvents]
  · rfl

theorem claim6_witness :
    runDetector initGDState
        [none, none, some (fun _ => ⟨0, 0, 0⟩, 1), some (fun _ => ⟨0, 0, 0⟩, 1), none]
      = [[], [], [GEvent.handDetected], [], [GEvent.handLost]] :=
  (claim6_edge_triggers initGDState
    [none, none, some (fun _ => ⟨0, 0, 0⟩, 1), some (fun _ => ⟨0, 0, 0⟩, 1), none]
    2 (by simp)).2

/-- Claim C7: each finger's extension score is
`min(dist(tip, knuckle) / (1.5 * dist(knuckle, wrist)), 1)`, so it never
exceeds 1 and equals exactly 1 as soon as the tip is at least 1.5 times the
knuckle-to-wrist distance from the knuckle; the raw openness is the mean of
the five scores raised to the power 0.8, and the returned openness is its
clamp to [0, 1]. -/
theorem claim7_extension_openness (lm : ℕ → Landmark) (tip mcp : ℕ)
    (hstraight : landmarkDistance (lm mcp) (lm 0) * 1.5
        ≤ landmarkDistance (lm tip) (lm mcp))
    (hpos : 0 < landmarkDistance (lm mcp) (lm 0)) :
    extensionScore lm tip mcp
      = min (landmarkDistance (lm tip) (lm mcp)
          / (landmarkDistance (lm mcp) (lm 0) * 1.5)) 1 ∧
    extensionScore lm tip mcp ≤ 1 ∧
    extensionScore lm tip mcp = 1 ∧
    totalExtension lm
      = extensionScore lm 4 1 + extensionScore lm 8 5 + extensionScore lm 12 9
        + extensionScore lm 16 13 + extensionScore lm 20 17 ∧
    rawOpenness lm = (totalExtension lm / 5) ^ (0.8 : ℝ) ∧
    (analyzeGesture lm).openness = max 0 (min 1 (rawOpenness lm)) := by
  refine ⟨rfl, min_le_right _ _, ?_, ?_, ?_, rfl⟩
  · unfold extensionScore
    rw [min_eq_right]
    exact (one_le_div (mul_pos hpos (by norm_num))).mpr hstraight
  · simp [totalExtension, fingerTips, fingerMCPs]
    ring
  · norm_num [rawOpenness, fingerTips]

theorem claim7_witness : extensionScore lmStraight 8 5 = 1 := by
  have d1 : landmarkDistance (lmStraight 5) (lmStraight 0) = 1 := by
    simp [lmStraight, landmarkDistance]
  have d2 : landmarkDistance (lmStraight 8) (lmStraight 5) = 1.5 := by
    simp only [lmStraight, landmarkDistance]
    norm_num
    rw [show (9 : ℝ) = 3 ^ 2 by norm_num, show (4 : ℝ) = 2 ^ 2 by norm_num,
      Real.sqrt_sq (by norm_num), Real.sqrt_sq (by norm_num)]
    try norm_num
  exact (claim7_extension_openness lmStraight 8 5
    (by rw [d1, d2]; norm_num) (by rw [d1]; norm_num)).2.2.1

/-- Claim C8: the smoothing factor defaults to 0.3; `setSensitivity(v)` sets
it to `0.2 + (1 - v) * 0.3`, a monotone (decreasing) function of the
sensitivity whose maximum on [0, 1] is 0.5, reached at sensitivity 0. -/
theorem claim8_smoothing_factor (s : GDState) (v v1 v2 : ℝ)
    (hv0 : 0 ≤ v) (hv1 : v ≤ 1) (h12 : v1 ≤ v2) :
    initGDState.smoothingFactor = 0.3 ∧
    (setSensitivity s v).smoothingFactor = 0.2 + (1 - v) * 0.3 ∧
    smoothingFactorFor 0 = 0.5 ∧
    smoothingFactorFor v ≤ 0.5 ∧
    0.2 ≤ smoothingFactorFor v ∧
    smoothingFactorFor v2 ≤ smoothingFactorFor v1 := by
  refine ⟨rfl, rfl, by norm_num [smoothingFactorFor], ?_, ?_, ?_⟩
  all_goals unfold smoothingFactorFor
  · linarith
  · linarith
  · linarith

theorem claim8_witness : smoothingFactorFor 0 = 0.5 :=
  (claim8_smoothing_factor initGDState (1 / 2) 0 1 (by norm_num) (by norm_num)
    (by norm_num)).2.2.1

/-- Claim C10: a no-hand frame leaves the smoothing memory
(`previousOpenness`, `previousPosition`) unchanged — only the emitted tuple
decays — so the first hand frame after `K` no-hand frames smooths from the
last hand-tracked values, not from the relaxed near-neutral values. -/
theorem claim10_smoothing_memory (s : GDState) (K : ℕ) (lm : ℕ → Landmark)
    (score : ℝ) :
    ((onResults s none).1.prevOpenness = s.prevOpenness ∧
     (onResults s none).1.prevPosX = s.prevPosX ∧
     (onResults s none).1.prevPosY = s.prevPosY) ∧
    ((onResults (noHandStep^[K] s) (some (lm, score))).1.opennessCur
       = lerp s.prevOpenness (analyzeGesture lm).openness s.smoothingFactor ∧
     (onResults (noHandStep^[K] s) (some (lm, score))).1.posCurX
       = lerp s.prevPosX (analyzeGesture lm).posX s.smoothingFactor ∧
     (onResults (noHandStep^[K] s) (some (lm, score))).1.posCurY
       = lerp s.prevPosY (analyzeGesture lm).posY s.smoothingFactor) := by
  obtain ⟨_, _, _, p1, p2, p3, p4⟩ := noHandStep_iter s K
  refine ⟨⟨rfl, rfl, rfl⟩, ?_, ?_, ?_⟩
  · show lerp (noHandStep^[K] s).prevOpenness (analyzeGesture lm).openness
        (noHandStep^[K] s).smoothingFactor = _
    rw [p1, p4]
  · show lerp (noHandStep^[K] s).prevPosX (analyzeGesture lm).posX
        (noHandStep^[K] s).smoothingFactor = _
    rw [p2, p4]
  · show lerp (noHandStep^[K] s).prevPosY (analyzeGesture lm).posY
        (noHandStep^[K] s).smoothingFactor = _
    rw [p3, p4]

/-! ## Binary-variant claim -/

theorem mapMul_getD (l : List ℝ) (c : ℝ) (j : ℕ) (hj : j < l.length) :
    (l.map (fun p => p * c)).getD j 0 = l.getD j 0 * c := by
  rw [List.getD_eq_getElem _ _ (by simpa using hj), List.getD_eq_getElem _ _ hj,
    List.getElem_map]

/-- Claim C9: the binary variant classifies a hand open iff at least 3 of the
5 fingers are extended (thumb by tip-to-base distance above 0.1, the others
by tip y below knuckle y); a present hand yields exactly the two target
scales 1.5 (open) and 0.3 (closed); and each animate tick moves the scale
toward the target by the fixed factor 0.05, applied directly to the scale of
every particle's initial position. -/
theorem claim9_binary_variant (st : Binary.BState) (lm : ℕ → Landmark) (j : ℕ)
    (hj : j < st.initialPositions.length) :
    (Binary.detectHandGesture lm = Binary.HandState.openHand
      ↔ 3 ≤ Binary.extendedCount lm) ∧
    ((Binary.onHandsResults st (some lm)).targetScale = 1.5
      ∨ (Binary.onHandsResults st (some lm)).targetScale = 0.3) ∧
    ((Binary.onHandsResults st (some lm)).targetScale = 1.5
      ↔ 3 ≤ Binary.extendedCount lm) ∧
    (Binary.onHandsResults st none).targetScale = 1.0 ∧
    (Binary.animate st).currentScale
      = st.currentScale + (st.targetScale - st.currentScale) * 0.05 ∧
    (Binary.animate st).positions.getD j 0
      = st.initialPositions.getD j 0 * (Binary.animate st).currentScale := by
  have hOH : Binary.onHandsResults st (some lm)
      = if 3 ≤ Binary.extendedCount lm
        then { st with isHandOpen := true, targetScale := 1.5 }
        else { st with isHandOpen := false, targetScale := 0.3 } := by
    unfold Binary.onHandsResults Binary.detectHandGesture
    by_cases hcount : 3 ≤ Binary.extendedCount lm <;> simp [hcount]
  refine ⟨?_, ?_, ?_, rfl, rfl, ?_⟩
  · unfold Binary.detectHandGesture
    by_cases hcount : 3 ≤ Binary.extendedCount lm <;> simp [hcount]
  · by_cases hcount : 3 ≤ Binary.extendedCount lm <;> simp [hOH, hcount]
  · by_cases hcount : 3 ≤ Binary.extendedCount lm <;> simp [hOH, hcount] <;> norm_num
  · exact mapMul_getD st.initialPositions _ j hj

theorem claim9_witness :
    (Binary.animate bs1).currentScale
      = bs1.currentScale + (bs1.targetScale - bs1.currentScale) * 0.05 :=
  (claim9_binary_variant bs1 lmStraight 0 (by simp [bs1])).2.2.2.2.1

end GPS
